import Mathlib

/-!
Shallow embedding of the broqer reactive publish/subscribe core
(`broqer/core/publisher.py`, `broqer/op/switch.py`, `broqer/op/to_future.py`)
together with theorems settling the specification claims about it.

Python object identity is modelled by a numeric `id` field on subscriber
objects (two distinct objects never share an `id`); Python exceptions are
modelled with `Except` over an explicit error type; asyncio futures returned
by subscribers are modelled as numeric handles.
-/

/-- The Python exceptions raised by the embedded code. -/
inductive PyError where
  | subscriptionError (msg : String)
  | valueError (msg : String)
  | keyError
  | assertionError (msg : String)
  | invalidStateError
  | recursionError
deriving DecidableEq, Repr

/-- A subscriber object: `id` models Python object identity (`is`),
`val` models the payload compared by value equality (`==`).  Two
otherwise-equal subscriber objects have equal `val` but distinct `id`. -/
structure Subscriber where
  id : Nat
  val : Nat
deriving DecidableEq, Repr

/-- A `Publisher` holds an ordered list of subscriber references
(`publisher.py`, `Publisher.__init__`: `self._subscriptions = list()`). -/
structure Publisher where
  subscriptions : List Subscriber
deriving DecidableEq, Repr

/-- `Publisher.subscribe` (`publisher.py` lines 35-55): raises
`SubscriptionError` when an identity match is already registered
(`any(subscriber is s for s in self._subscriptions)`), otherwise inserts at
the front (`prepend=True`) or appends.  The returned disposable is not
modelled here. -/
def Publisher.subscribe (p : Publisher) (s : Subscriber) (prepend : Bool) :
    Except PyError Publisher :=
  if p.subscriptions.any (fun t => t.id = s.id) then
    .error (PyError.subscriptionError "Subscriber already registered")
  else if prepend then
    .ok { subscriptions := s :: p.subscriptions }
  else
    .ok { subscriptions := p.subscriptions ++ [s] }

/-- Scan of `Publisher.unsubscribe` (`publisher.py` lines 68-71): find the
first identity match and pop it; `none` when no identity match exists. -/
def removeFirstById : List Subscriber → Nat → Option (List Subscriber)
  | [], _ => none
  | t :: rest, i =>
    if t.id = i then some rest
    else (removeFirstById rest i).map (fun l => t :: l)

/-- `Publisher.unsubscribe` (`publisher.py` lines 57-72): removes the first
identity match (`if _s is subscriber: self._subscriptions.pop(i)`), raising
`SubscriptionError` when the subscriber is not registered. -/
def Publisher.unsubscribe (p : Publisher) (s : Subscriber) :
    Except PyError Publisher :=
  match removeFirstById p.subscriptions s.id with
  | some l => .ok { subscriptions := l }
  | none => .error (PyError.subscriptionError "Subscriber is not registered")

/-- `Publisher.__bool__` (`publisher.py` lines 134-141): boolean coercion of
any publisher unconditionally raises a `ValueError`. -/
def Publisher.bool_eval (_p : Publisher) : Except PyError Bool :=
  .error (PyError.valueError
    "Evaluation of comparison of publishers is not supported")

/-- The value returned by `Publisher.notify`: either the single future
returned by the unique asynchronous subscriber, or the `asyncio.gather` of
several such futures.  Futures are modelled as numeric handles. -/
inductive AggFuture where
  | single (f : Nat)
  | gathered (fs : List Nat)
deriving DecidableEq, Repr

/-- Future aggregation in `Publisher.notify` (`publisher.py` lines 89-97):
collect the non-`None` results of the subscribers' `emit` calls; with no
future return `None`, with exactly one return it unwrapped, with several
return `asyncio.gather(*futures)`. -/
def Publisher.aggregateResults (results : List (Option Nat)) :
    Option AggFuture :=
  match results.filterMap id with
  | [] => none
  | [f] => some (AggFuture.single f)
  | f :: g :: fs => some (AggFuture.gathered (f :: g :: fs))

/-- Completion semantics of an aggregated future, with `fin h = true` meaning
the constituent future `h` has completed.  A gathered future completes
exactly when every constituent completes (`asyncio.gather` join semantics,
modelled from the asyncio library contract the code relies on). -/
def AggFuture.isComplete (fin : Nat → Bool) : AggFuture → Bool
  | AggFuture.single f => fin f
  | AggFuture.gathered fs => fs.all fin

/-- The iteration step of `Publisher.notify` (`publisher.py` lines 89-90):
`tuple(s.emit(value, who=self) for s in tuple(self._subscriptions))`.  The
inner `tuple(...)` snapshots the registry before iterating, while each
subscriber's `emit` may mutate the live registry (`handlers s.id` maps the
publisher state across one `emit` call of subscriber `s`).  Returns the list
of subscribers whose `emit` was invoked, in invocation order, together with
the publisher state after the pass. -/
def Publisher.notifySnapshot (handlers : Nat → Publisher → Publisher)
    (p : Publisher) : List Subscriber × Publisher :=
  p.subscriptions.foldl
    (fun acc s => (acc.1 ++ [s], handlers s.id acc.2)) ([], p)

/-- A value held or emitted by a stateful publisher.  `uninitialized` models
the `UNINITIALIZED` sentinel object, which is distinct from every payload
and compared by identity (`is not UNINITIALIZED`); payloads are compared by
value equality (`!=`). -/
inductive PyValue where
  | uninitialized
  | val (n : Nat)
deriving DecidableEq, Repr

/-- A `StatefulPublisher` (`publisher.py` lines 144-179) is a publisher with
a `state` field, initialized to the `UNINITIALIZED` sentinel. -/
structure StatefulPublisher extends Publisher where
  state : PyValue
deriving DecidableEq, Repr

/-- The broadcast step of the base `Publisher.notify` (`publisher.py` line
89): one `emit(value, who=self)` call per registered subscriber, in
registration order.  An emission is recorded as (subscriber id, value). -/
def Publisher.emitAll (p : Publisher) (v : PyValue) : List (Nat × PyValue) :=
  p.subscriptions.map (fun s => (s.id, v))

/-- `StatefulPublisher.notify` (`publisher.py` lines 169-173): when
`self._state != value` (value equality) the state is updated to `value` and
the full base `Publisher.notify` runs; otherwise `None` is returned with no
emission.  Returns the publisher after the call and the emissions it
delivered. -/
def StatefulPublisher.notify (p : StatefulPublisher) (v : PyValue) :
    StatefulPublisher × List (Nat × PyValue) :=
  if p.state ≠ v then
    ({ p with state := v }, p.toPublisher.emitAll v)
  else
    (p, [])

/-- `StatefulPublisher.subscribe` (`publisher.py` lines 157-162): performs
the base `Publisher.subscribe`, then, when `self._state is not
UNINITIALIZED`, calls `subscriber.emit(self._state, who=self)` on the new
subscriber only, before returning.  Returns the publisher after the call
and the emissions delivered during it. -/
def StatefulPublisher.subscribe (p : StatefulPublisher) (s : Subscriber)
    (prepend : Bool) :
    Except PyError (StatefulPublisher × List (Nat × PyValue)) :=
  match p.toPublisher.subscribe s prepend with
  | .error e => .error e
  | .ok base =>
    match p.state with
    | PyValue.uninitialized => .ok ({ p with toPublisher := base }, [])
    | st => .ok ({ p with toPublisher := base }, [(s.id, st)])

/-- The state of a `Switch` operator (`switch.py` lines 54-59): the identity
of the control (`selection`) publisher, the identity of the currently
subscribed candidate (`None` before the first successful selection), and
the value-to-candidate mapping.  Publishers are identified by numeric
identity; mapping keys and emitted payloads are numbers. -/
structure SwitchState where
  selection_id : Nat
  selected_publisher : Option Nat
  mapping : List (Nat × Nat)
deriving DecidableEq, Repr

/-- Python dict lookup `self._mapping[value]`: `none` models the `KeyError`
raised for a missing key. -/
def lookupMapping : List (Nat × Nat) → Nat → Option Nat
  | [], _ => none
  | (k, p) :: rest, v => if k = v then some p else lookupMapping rest v

/-- Observable actions performed by `Switch.emit`: unsubscribing from /
subscribing to a candidate publisher, and forwarding a value downstream via
the operator's own `notify`. -/
inductive SwitchEffect where
  | unsubscribeFrom (p : Nat)
  | subscribeTo (p : Nat)
  | notifyOut (v : Nat)
deriving DecidableEq, Repr

/-- `Switch.emit` (`switch.py` lines 65-75).  When `who` is the control
publisher: look up `mapping[value]` (a missing key raises `KeyError`); when
the target candidate differs (by identity) from `self._selected_publisher`,
unsubscribe from the old candidate if any, assign
`self._selected_publisher` to the target, then subscribe to it.  During
that subscribe a stateful candidate replays its state by calling
`Switch.emit` reentrantly (`replay pid` is the value publisher `pid`
replays on subscribe, `none` for a plain publisher); the recursion is
fuelled, the fuel standing for Python's finite call stack.  When `who` is
not the control publisher, the code asserts that `who` is the selected
candidate and forwards the value via the operator's own `notify`. -/
def Switch.emit : Nat → SwitchState → Nat → Nat → (Nat → Option Nat) →
    Except PyError (SwitchState × List SwitchEffect)
  | 0, _, _, _, _ => .error PyError.recursionError
  | fuel + 1, st, v, who, replay =>
    if who = st.selection_id then
      match lookupMapping st.mapping v with
      | none => .error PyError.keyError
      | some target =>
        if some target ≠ st.selected_publisher then
          let unsubs := match st.selected_publisher with
            | some old => [SwitchEffect.unsubscribeFrom old]
            | none => []
          let st1 := { st with selected_publisher := some target }
          match replay target with
          | none => .ok (st1, unsubs ++ [SwitchEffect.subscribeTo target])
          | some r =>
            match Switch.emit fuel st1 r target replay with
            | .error e => .error e
            | .ok (st2, effs) =>
              .ok (st2, unsubs ++ SwitchEffect.subscribeTo target :: effs)
        else .ok (st, [])
    else
      if st.selected_publisher = some who then
        .ok (st, [SwitchEffect.notifyOut v])
      else
        .error (PyError.assertionError "emit from not selected publisher")

/-- The effect of one `Switch` action on the set of candidate publishers the
operator is currently subscribed to. -/
def applySwitchEffect (subscribed : List Nat) : SwitchEffect → List Nat
  | SwitchEffect.unsubscribeFrom p => subscribed.erase p
  | SwitchEffect.subscribeTo p => subscribed ++ [p]
  | SwitchEffect.notifyOut _ => subscribed

/-- The settled value of a `ToFuture` bridge: `args[0]` when exactly one
positional value was emitted, the ordered tuple `args` otherwise
(`to_future.py` lines 60-63). -/
inductive SettledResult where
  | single (v : Nat)
  | tuple (vs : List Nat)
deriving DecidableEq, Repr

/-- What a settled `ToFuture` holds: a value or the `asyncio.TimeoutError`
set by the timeout callback. -/
inductive FutureOutcome where
  | value (r : SettledResult)
  | timeoutError
deriving DecidableEq, Repr

/-- The state of a `ToFuture` bridge (`to_future.py` lines 31-63).
`result = none` means the future is pending.  `timeoutHandle` is `none`
when no timeout was configured, `some true` while the scheduled callback is
still pending, and `some false` once it has been cancelled or has fired.
`subscribedToSource` tracks whether the source subscription taken in
`__init__` is still active. -/
structure ToFuture where
  result : Option FutureOutcome
  timeoutHandle : Option Bool
  subscribedToSource : Bool
deriving DecidableEq, Repr

/-- The bridge state right after `ToFuture.__init__` (`to_future.py` lines
32-44): pending, subscribed to the source, with a timeout callback
scheduled exactly when a timeout was given. -/
def ToFuture.mk_pending (withTimeout : Bool) : ToFuture :=
  { result := none
    timeoutHandle := if withTimeout then some true else none
    subscribedToSource := true }

/-- The `_future_done` done-callback (`to_future.py` lines 49-51): when a
timeout handle exists, cancel it.  It runs as part of every settlement and
does not touch the source subscription. -/
def ToFuture.future_done (f : ToFuture) : ToFuture :=
  match f.timeoutHandle with
  | some _ => { f with timeoutHandle := some false }
  | none => f

/-- `asyncio.Future.set_result` followed by the `_future_done` callback:
raises `InvalidStateError` when the future is already settled. -/
def ToFuture.set_result (f : ToFuture) (r : SettledResult) :
    Except PyError ToFuture :=
  match f.result with
  | some _ => .error PyError.invalidStateError
  | none =>
    .ok (ToFuture.future_done { f with result := some (FutureOutcome.value r) })

/-- `ToFuture._timeout` via `asyncio.Future.set_exception` (`to_future.py`
lines 46-47) followed by the `_future_done` callback. -/
def ToFuture.set_timeout_exc (f : ToFuture) : Except PyError ToFuture :=
  match f.result with
  | some _ => .error PyError.invalidStateError
  | none =>
    .ok (ToFuture.future_done { f with result := some FutureOutcome.timeoutError })

/-- The event loop firing the timeout scheduled with `loop.call_later`
(`to_future.py` line 40): the `_timeout` callback runs only while the
handle is still pending (a cancelled handle never runs); firing marks the
handle as no longer pending. -/
def ToFuture.timeout_fire (f : ToFuture) : Except PyError ToFuture :=
  match f.timeoutHandle with
  | some true => ToFuture.set_timeout_exc { f with timeoutHandle := some false }
  | _ => .ok f

/-- `ToFuture.emit` (`to_future.py` lines 53-63): first
`self._disposable.dispose()` (which raises `SubscriptionError` when the
subscription was already removed), then `set_result` with `args[0]` when
exactly one positional value was emitted and with the whole `args` tuple
otherwise.  The `who` assertion is not modelled: the bridge subscribes to a
single source. -/
def ToFuture.emit (f : ToFuture) (args : List Nat) : Except PyError ToFuture :=
  if f.subscribedToSource then
    let f1 := { f with subscribedToSource := false }
    match args with
    | [v] => ToFuture.set_result f1 (SettledResult.single v)
    | vs => ToFuture.set_result f1 (SettledResult.tuple vs)
  else
    .error (PyError.subscriptionError "Subscriber is not registered")

/-- The first component of the notify fold is the snapshot appended to the
accumulator, whatever the handlers do to the live registry. -/
theorem notifySnapshot_foldl_fst (g : Nat → Publisher → Publisher) :
    ∀ (l acc : List Subscriber) (q : Publisher),
      (l.foldl (fun a s => (a.1 ++ [s], g s.id a.2)) (acc, q)).1 = acc ++ l := by
  intro l
  induction l with
  | nil => intro acc q; simp
  | cons s rest ih =>
    intro acc q
    rw [List.foldl_cons, ih]
    simp

/-- Claim C9: any attempt to coerce a Publisher to a boolean raises a
ValueError immediately; it never yields a truthy or falsy value. -/
theorem c9_bool_coercion_raises (p : Publisher) :
    Publisher.bool_eval p =
      .error (PyError.valueError
        "Evaluation of comparison of publishers is not supported") ∧
    ∀ b : Bool, Publisher.bool_eval p ≠ .ok b := by
  refine ⟨rfl, ?_⟩
  intro b h
  simp [Publisher.bool_eval] at h

/-- Claim C4: `notify` collects the non-null emit results; with zero futures
it returns nothing, with exactly one it returns that future unwrapped, with
two or more it returns a gathered future that completes exactly when every
constituent future completes. -/
theorem c4_notify_future_aggregation (results : List (Option Nat)) :
    (results.filterMap id = [] → Publisher.aggregateResults results = none) ∧
    (∀ f, results.filterMap id = [f] →
      Publisher.aggregateResults results = some (AggFuture.single f)) ∧
    (∀ f g fs, results.filterMap id = f :: g :: fs →
      Publisher.aggregateResults results =
        some (AggFuture.gathered (f :: g :: fs)) ∧
      ∀ fin : Nat → Bool,
        (AggFuture.gathered (f :: g :: fs)).isComplete fin = true ↔
          ∀ h ∈ f :: g :: fs, fin h = true) := by
  refine ⟨?_, ?_, ?_⟩
  · intro h
    unfold Publisher.aggregateResults
    rw [h]
  · intro f h
    unfold Publisher.aggregateResults
    rw [h]
  · intro f g fs h
    constructor
    · unfold Publisher.aggregateResults
      rw [h]
    · intro fin
      simp [AggFuture.isComplete, List.all_eq_true]

/-- Witness for C4 at concrete inputs: zero, one and two collected futures. -/
theorem c4_notify_future_aggregation_witness :
    Publisher.aggregateResults [none, none] = none ∧
    Publisher.aggregateResults [none, some 7] = some (AggFuture.single 7) ∧
    Publisher.aggregateResults [none, some 3, some 5] =
      some (AggFuture.gathered [3, 5]) ∧
    ((AggFuture.gathered [3, 5]).isComplete (fun h => h = 3) = true ↔
      ∀ h ∈ [3, 5], (fun h => decide (h = 3)) h = true) :=
  ⟨(c4_notify_future_aggregation [none, none]).1 (by decide),
   (c4_notify_future_aggregation [none, some 7]).2.1 7 (by decide),
   ((c4_notify_future_aggregation [none, some 3, some 5]).2.2 3 5 []
      (by decide)).1,
   ((c4_notify_future_aggregation [none, some 3, some 5]).2.2 3 5 []
      (by decide)).2 (fun h => h = 3)⟩

/-- Claim C5: one `notify` call invokes the subscribers of the snapshot taken
at the start of the call, in registration order, whatever mutations the
invoked subscribers make to the registry; the mutations take effect only
for the next `notify` call. -/
theorem c5_notify_uses_snapshot (handlers h2 : Nat → Publisher → Publisher)
    (p : Publisher) :
    (Publisher.notifySnapshot handlers p).1 = p.subscriptions ∧
    (Publisher.notifySnapshot handlers p).1 =
      (Publisher.notifySnapshot h2 p).1 ∧
    (Publisher.notifySnapshot handlers
        (Publisher.notifySnapshot handlers p).2).1 =
      (Publisher.notifySnapshot handlers p).2.subscriptions := by
  refine ⟨?_, ?_, ?_⟩
  · unfold Publisher.notifySnapshot
    rw [notifySnapshot_foldl_fst]
    simp
  · unfold Publisher.notifySnapshot
    rw [notifySnapshot_foldl_fst, notifySnapshot_foldl_fst]
  · unfold Publisher.notifySnapshot
    rw [notifySnapshot_foldl_fst]
    simp

/-- The unsubscribe scan finds nothing exactly when no registered subscriber
has the searched identity. -/
theorem removeFirstById_eq_none (l : List Subscriber) (i : Nat) :
    removeFirstById l i = none ↔ ∀ t ∈ l, t.id ≠ i := by
  induction l with
  | nil => simp [removeFirstById]
  | cons a rest ih =>
    by_cases h : a.id = i
    · simp [removeFirstById, h]
    · simp [removeFirstById, h, ih]

/-- The unsubscribe scan pops exactly the first identity match. -/
theorem removeFirstById_first_match (i : Nat) :
    ∀ (l1 : List Subscriber) (t : Subscriber) (l2 : List Subscriber),
      (∀ u ∈ l1, u.id ≠ i) → t.id = i →
      removeFirstById (l1 ++ t :: l2) i = some (l1 ++ l2) := by
  intro l1
  induction l1 with
  | nil =>
    intro t l2 _ ht
    simp [removeFirstById, ht]
  | cons a rest ih =>
    intro t l2 hne ht
    have ha : a.id ≠ i := hne a (by simp)
    have hrest : ∀ u ∈ rest, u.id ≠ i := fun u hu => hne u (by simp [hu])
    simp [removeFirstById, ha, ih t l2 hrest ht]

/-- Claim C6: `subscribe` raises SubscriptionError exactly when an identity
match is already registered, so two value-equal but distinct subscriber
objects can both be subscribed; `unsubscribe` removes the first identity
match and raises SubscriptionError exactly when no identity match is
registered. -/
theorem c6_identity_based_registry (p : Publisher) (s : Subscriber)
    (prepend : Bool) :
    ((∃ t ∈ p.subscriptions, t.id = s.id) ↔
      Publisher.subscribe p s prepend =
        .error (PyError.subscriptionError "Subscriber already registered")) ∧
    (∀ t : Subscriber, t.val = s.val → t.id ≠ s.id →
      ∀ p1, Publisher.subscribe p s prepend = .ok p1 →
        (∀ u ∈ p.subscriptions, u.id ≠ t.id) →
        ∃ p2, Publisher.subscribe p1 t prepend = .ok p2) ∧
    ((∀ t ∈ p.subscriptions, t.id ≠ s.id) ↔
      Publisher.unsubscribe p s =
        .error (PyError.subscriptionError "Subscriber is not registered")) ∧
    (∀ (l1 : List Subscriber) (t : Subscriber) (l2 : List Subscriber),
      p.subscriptions = l1 ++ t :: l2 →
      (∀ u ∈ l1, u.id ≠ s.id) → t.id = s.id →
      Publisher.unsubscribe p s = .ok { subscriptions := l1 ++ l2 }) := by
  refine ⟨?_, ?_, ?_, ?_⟩
  · by_cases h : ∃ t ∈ p.subscriptions, t.id = s.id
    · simp only [h, true_iff]
      unfold Publisher.subscribe
      rw [if_pos (by simpa [List.any_eq_true] using h)]
    · simp only [h, false_iff]
      unfold Publisher.subscribe
      rw [if_neg (by simpa [List.any_eq_true] using h)]
      by_cases hp : prepend <;> simp [hp]
  · intro t _hval hid p1 hok hnone
    have hsubs : p1.subscriptions = s :: p.subscriptions ∨
        p1.subscriptions = p.subscriptions ++ [s] := by
      unfold Publisher.subscribe at hok
      by_cases hs : (p.subscriptions.any (fun u => u.id = s.id)) = true
      · rw [if_pos hs] at hok
        cases hok
      · rw [if_neg hs] at hok
        by_cases hp : prepend
        · rw [if_pos hp] at hok
          simp only [Except.ok.injEq] at hok
          left
          rw [← hok]
        · rw [if_neg hp] at hok
          simp only [Except.ok.injEq] at hok
          right
          rw [← hok]
    have hany : ¬ (p1.subscriptions.any (fun u => u.id = t.id) = true) := by
      simp only [List.any_eq_true, decide_eq_true_eq]
      rintro ⟨u, hu, hut⟩
      rcases hsubs with h | h <;> rw [h] at hu
      · rcases List.mem_cons.mp hu with rfl | hu2
        · exact hid hut.symm
        · exact hnone u hu2 hut
      · rcases List.mem_append.mp hu with hu2 | hu2
        · exact hnone u hu2 hut
        · have hus : u = s := by simpa using hu2
          rw [hus] at hut
          exact hid hut.symm
    unfold Publisher.subscribe
    rw [if_neg hany]
    by_cases hp : prepend
    · rw [if_pos hp]
      exact ⟨_, rfl⟩
    · rw [if_neg hp]
      exact ⟨_, rfl⟩
  · constructor
    · intro h
      unfold Publisher.unsubscribe
      rw [(removeFirstById_eq_none _ _).mpr h]
    · intro h t ht hti
      unfold Publisher.unsubscribe at h
      cases hrem : removeFirstById p.subscriptions s.id with
      | some l =>
        rw [hrem] at h
        cases h
      | none => exact (removeFirstById_eq_none _ _).mp hrem t ht hti
  · intro l1 t l2 hsplit hne ht
    unfold Publisher.unsubscribe
    rw [hsplit, removeFirstById_first_match s.id l1 t l2 hne ht]

/-- Witness for C6: duplicate subscribe fails, two value-equal but distinct
objects both subscribe, unsubscribe pops the first identity match, and
unsubscribing an unregistered subscriber fails. -/
theorem c6_identity_based_registry_witness :
    Publisher.subscribe ⟨[⟨1, 7⟩, ⟨2, 5⟩]⟩ ⟨2, 5⟩ false =
      .error (PyError.subscriptionError "Subscriber already registered") ∧
    (∃ p2, Publisher.subscribe ⟨[⟨1, 7⟩]⟩ ⟨2, 7⟩ false = .ok p2) ∧
    Publisher.unsubscribe ⟨[⟨1, 7⟩, ⟨2, 5⟩]⟩ ⟨2, 5⟩ = .ok ⟨[⟨1, 7⟩]⟩ ∧
    Publisher.unsubscribe ⟨[⟨1, 7⟩]⟩ ⟨2, 5⟩ =
      .error (PyError.subscriptionError "Subscriber is not registered") :=
  ⟨(c6_identity_based_registry ⟨[⟨1, 7⟩, ⟨2, 5⟩]⟩ ⟨2, 5⟩ false).1.mp
      (by decide),
   (c6_identity_based_registry ⟨[]⟩ ⟨1, 7⟩ false).2.1 ⟨2, 7⟩ (by decide)
      (by decide) ⟨[⟨1, 7⟩]⟩ (by rfl) (by decide),
   (c6_identity_based_registry ⟨[⟨1, 7⟩, ⟨2, 5⟩]⟩ ⟨2, 5⟩ false).2.2.2
      [⟨1, 7⟩] ⟨2, 5⟩ [] (by decide) (by decide) (by decide),
   (c6_identity_based_registry ⟨[⟨1, 7⟩]⟩ ⟨2, 5⟩ false).2.2.1.mp (by decide)⟩

/-- Counting emissions addressed to one id in a broadcast reduces to
counting registrations with that id. -/
theorem countP_broadcast (subs : List Subscriber) (v : PyValue) (i : Nat) :
    (subs.map (fun t => (t.id, v))).countP (fun e => e.1 = i) =
      subs.countP (fun t => t.id = i) := by
  induction subs with
  | nil => simp
  | cons a rest ih => simp [List.countP_cons, ih]

/-- With identity-unique registrations, a registered subscriber's id occurs
exactly once. -/
theorem countP_id_of_nodup (subs : List Subscriber) (s : Subscriber)
    (hs : s ∈ subs) (hnodup : (subs.map Subscriber.id).Nodup) :
    subs.countP (fun t => t.id = s.id) = 1 := by
  induction subs with
  | nil => cases hs
  | cons a rest ih =>
    simp only [List.map_cons, List.nodup_cons] at hnodup
    rcases List.mem_cons.mp hs with rfl | hmem
    · have hzero : rest.countP (fun t => t.id = s.id) = 0 := by
        rw [List.countP_eq_zero]
        intro t ht
        simp only [decide_eq_true_eq]
        intro h
        exact hnodup.1 (by rw [← h]; exact List.mem_map_of_mem Subscriber.id ht)
      simp [List.countP_cons, hzero]
    · have ha : ¬ a.id = s.id := by
        intro h
        exact hnodup.1 (h ▸ List.mem_map_of_mem Subscriber.id hmem)
      rw [List.countP_cons]
      simp [ha, ih hmem hnodup.2]

/-- Claim C2: the stateful notify gate compares by value equality: an equal
value is a no-op with no emission, a different value updates the state and
performs the full base broadcast; hence two successive notifies of the same
value deliver exactly one emission to each existing subscriber. -/
theorem c2_stateful_notify_gate (p : StatefulPublisher) (v : PyValue)
    (s : Subscriber) :
    (p.state = v → StatefulPublisher.notify p v = (p, [])) ∧
    (p.state ≠ v →
      (StatefulPublisher.notify p v).1.state = v ∧
      (StatefulPublisher.notify p v).1.subscriptions = p.subscriptions ∧
      (StatefulPublisher.notify p v).2 = p.toPublisher.emitAll v) ∧
    (p.state ≠ v → s ∈ p.subscriptions →
      (p.subscriptions.map Subscriber.id).Nodup →
      ((StatefulPublisher.notify p v).2 ++
          (StatefulPublisher.notify (StatefulPublisher.notify p v).1 v).2).countP
        (fun e => e.1 = s.id) = 1) := by
  refine ⟨?_, ?_, ?_⟩
  · intro h
    simp [StatefulPublisher.notify, h]
  · intro h
    unfold StatefulPublisher.notify
    rw [if_pos h]
    simp
  · intro h hs hnodup
    unfold StatefulPublisher.notify
    rw [if_pos h]
    simp only [ne_eq, not_true_eq_false, if_false, List.append_nil,
      Publisher.emitAll]
    rw [countP_broadcast]
    exact countP_id_of_nodup p.subscriptions s hs hnodup

/-- Witness for C2: an equal-value notify is a no-op, and notifying 5 twice
from uninitialized delivers exactly one emission to subscriber 1. -/
theorem c2_stateful_notify_gate_witness :
    StatefulPublisher.notify ⟨⟨[⟨1, 10⟩, ⟨2, 20⟩]⟩, PyValue.val 5⟩
      (PyValue.val 5) = (⟨⟨[⟨1, 10⟩, ⟨2, 20⟩]⟩, PyValue.val 5⟩, []) ∧
    ((StatefulPublisher.notify ⟨⟨[⟨1, 10⟩, ⟨2, 20⟩]⟩, PyValue.uninitialized⟩
        (PyValue.val 5)).2 ++
      (StatefulPublisher.notify
        (StatefulPublisher.notify ⟨⟨[⟨1, 10⟩, ⟨2, 20⟩]⟩,
          PyValue.uninitialized⟩ (PyValue.val 5)).1 (PyValue.val 5)).2).countP
      (fun e => e.1 = 1) = 1 :=
  ⟨(c2_stateful_notify_gate ⟨⟨[⟨1, 10⟩, ⟨2, 20⟩]⟩, PyValue.val 5⟩
      (PyValue.val 5) ⟨1, 10⟩).1 (by decide),
   (c2_stateful_notify_gate ⟨⟨[⟨1, 10⟩, ⟨2, 20⟩]⟩, PyValue.uninitialized⟩
      (PyValue.val 5) ⟨1, 10⟩).2.2 (by decide) (by decide) (by decide)⟩

/-- Claim C7: for a stateful publisher with a non-sentinel state, subscribe
performs the base subscribe and then synchronously emits the state to the
newly added subscriber only; with the sentinel state no replay emit
occurs. -/
theorem c7_stateful_subscribe_replay (p : StatefulPublisher) (s : Subscriber)
    (prepend : Bool) (base : Publisher)
    (hbase : p.toPublisher.subscribe s prepend = .ok base) :
    (p.state = PyValue.uninitialized →
      StatefulPublisher.subscribe p s prepend =
        .ok ({ p with toPublisher := base }, [])) ∧
    (p.state ≠ PyValue.uninitialized →
      StatefulPublisher.subscribe p s prepend =
        .ok ({ p with toPublisher := base }, [(s.id, p.state)]) ∧
      ∀ q emits, StatefulPublisher.subscribe p s prepend = .ok (q, emits) →
        ∀ e ∈ emits, e.1 = s.id) := by
  constructor
  · intro h
    unfold StatefulPublisher.subscribe
    rw [hbase, h]
  · intro h
    constructor
    · cases hstate : p.state with
      | uninitialized => exact absurd hstate h
      | val n =>
        unfold StatefulPublisher.subscribe
        rw [hbase, hstate]
    · intro q emits hq e he
      unfold StatefulPublisher.subscribe at hq
      rw [hbase] at hq
      cases hstate : p.state with
      | uninitialized =>
        rw [hstate] at hq
        simp only [Except.ok.injEq, Prod.mk.injEq] at hq
        rw [← hq.2] at he
        cases he
      | val n =>
        rw [hstate] at hq
        simp only [Except.ok.injEq, Prod.mk.injEq] at hq
        rw [← hq.2] at he
        simp only [List.mem_singleton] at he
        rw [he]

/-- Witness for C7: replay of the held state to the new subscriber only, and
no replay when uninitialized. -/
theorem c7_stateful_subscribe_replay_witness :
    StatefulPublisher.subscribe ⟨⟨[⟨1, 10⟩]⟩, PyValue.val 4⟩ ⟨2, 20⟩ false =
      .ok (⟨⟨[⟨1, 10⟩, ⟨2, 20⟩]⟩, PyValue.val 4⟩, [(2, PyValue.val 4)]) ∧
    StatefulPublisher.subscribe ⟨⟨[⟨1, 10⟩]⟩, PyValue.uninitialized⟩
      ⟨2, 20⟩ false =
      .ok (⟨⟨[⟨1, 10⟩, ⟨2, 20⟩]⟩, PyValue.uninitialized⟩, []) :=
  ⟨((c7_stateful_subscribe_replay ⟨⟨[⟨1, 10⟩]⟩, PyValue.val 4⟩ ⟨2, 20⟩ false
      ⟨[⟨1, 10⟩, ⟨2, 20⟩]⟩ (by rfl)).2 (by decide)).1,
   (c7_stateful_subscribe_replay ⟨⟨[⟨1, 10⟩]⟩, PyValue.uninitialized⟩ ⟨2, 20⟩
      false ⟨[⟨1, 10⟩, ⟨2, 20⟩]⟩ (by rfl)).1 (by rfl)⟩

/-- Claim C8: on its first observed emission a pending bridge settles with
the single emitted value, or with the ordered tuple when the notification
carried several positional values; settlement tears down the source
subscription and cancels the pending timeout callback. -/
theorem c8_tofuture_settles_on_first_emission (f : ToFuture) (v : Nat)
    (vs : List Nat) (hpend : f.result = none)
    (hsub : f.subscribedToSource = true) :
    ToFuture.emit f [v] =
      .ok (ToFuture.future_done
        { f with subscribedToSource := false,
                 result := some (FutureOutcome.value (SettledResult.single v)) }) ∧
    (vs.length ≠ 1 →
      ToFuture.emit f vs =
        .ok (ToFuture.future_done
          { f with subscribedToSource := false,
                   result := some (FutureOutcome.value (SettledResult.tuple vs)) })) ∧
    (∀ g, ToFuture.emit f [v] = .ok g →
      g.result = some (FutureOutcome.value (SettledResult.single v)) ∧
      g.subscribedToSource = false ∧
      (f.timeoutHandle.isSome = true → g.timeoutHandle = some false)) := by
  have h1 : ToFuture.emit f [v] =
      .ok (ToFuture.future_done
        { f with subscribedToSource := false,
                 result := some (FutureOutcome.value (SettledResult.single v)) }) := by
    unfold ToFuture.emit ToFuture.set_result
    simp only [hsub, if_true, hpend]
  refine ⟨h1, ?_, ?_⟩
  · intro hlen
    cases vs with
    | nil =>
      unfold ToFuture.emit ToFuture.set_result
      simp only [hsub, if_true, hpend]
    | cons a t =>
      cases t with
      | nil => exact absurd rfl hlen
      | cons b t2 =>
        unfold ToFuture.emit ToFuture.set_result
        simp only [hsub, if_true, hpend]
  · intro g hg
    rw [h1] at hg
    simp only [Except.ok.injEq] at hg
    rw [← hg]
    unfold ToFuture.future_done
    cases hth : f.timeoutHandle with
    | none => simp [hth]
    | some b => simp [hth]

/-- Witness for C8: a pending bridge with a timeout settles with the single
value 5 and cancels the timeout; one without a timeout settles with the
tuple of two values. -/
theorem c8_tofuture_settles_on_first_emission_witness :
    ToFuture.emit (ToFuture.mk_pending true) [5] =
      .ok { result := some (FutureOutcome.value (SettledResult.single 5)),
            timeoutHandle := some false, subscribedToSource := false } ∧
    ToFuture.emit (ToFuture.mk_pending false) [5, 6] =
      .ok { result := some (FutureOutcome.value (SettledResult.tuple [5, 6])),
            timeoutHandle := none, subscribedToSource := false } :=
  ⟨(c8_tofuture_settles_on_first_emission (ToFuture.mk_pending true) 5 []
      (by rfl) (by rfl)).1,
   (c8_tofuture_settles_on_first_emission (ToFuture.mk_pending false) 5 [5, 6]
      (by rfl) (by rfl)).2.1 (by decide)⟩

/-- Claim C1 evaluated on the code at the failing input: when the timeout
fires on a pending bridge, the bridge settles with the timeout failure but
the source subscription is NOT torn down (`_future_done` only cancels the
timeout handle), and a subsequent emission from the source raises
`InvalidStateError` from `set_result` instead of having no effect. -/
theorem c1_timeout_settlement_keeps_subscription :
    ToFuture.timeout_fire (ToFuture.mk_pending true) =
      .ok { result := some FutureOutcome.timeoutError,
            timeoutHandle := some false, subscribedToSource := true } ∧
    ToFuture.emit
      { result := some FutureOutcome.timeoutError,
        timeoutHandle := some false, subscribedToSource := true } [1] =
      .error PyError.invalidStateError := by
  exact ⟨rfl, rfl⟩

/-- Claim C3: a control emission with a missing mapping key propagates the
lookup failure; selecting the already-subscribed candidate causes no
re-subscription; selecting a different candidate unsubscribes the old one
(if any) and subscribes the new one, produces no output to the operator's
own subscribers, and at most one candidate is subscribed at every
intermediate point of the transition. -/
theorem c3_switch_control_emission (st : SwitchState) (v target fuel : Nat) :
    (lookupMapping st.mapping v = none →
      Switch.emit (fuel + 1) st v st.selection_id (fun _ => none) =
        .error PyError.keyError) ∧
    (lookupMapping st.mapping v = some target →
      some target = st.selected_publisher →
      Switch.emit (fuel + 1) st v st.selection_id (fun _ => none) =
        .ok (st, [])) ∧
    (lookupMapping st.mapping v = some target →
      some target ≠ st.selected_publisher →
      Switch.emit (fuel + 1) st v st.selection_id (fun _ => none) =
        .ok ({ st with selected_publisher := some target },
          (match st.selected_publisher with
            | some old => [SwitchEffect.unsubscribeFrom old]
            | none => []) ++ [SwitchEffect.subscribeTo target]) ∧
      (∀ w st2 effs,
        Switch.emit (fuel + 1) st v st.selection_id (fun _ => none) =
          .ok (st2, effs) →
        SwitchEffect.notifyOut w ∉ effs) ∧
      (∀ n, (List.foldl applySwitchEffect st.selected_publisher.toList
          (((match st.selected_publisher with
            | some old => [SwitchEffect.unsubscribeFrom old]
            | none => []) ++ [SwitchEffect.subscribeTo target]).take n)).length
        ≤ 1) ∧
      List.foldl applySwitchEffect st.selected_publisher.toList
        ((match st.selected_publisher with
          | some old => [SwitchEffect.unsubscribeFrom old]
          | none => []) ++ [SwitchEffect.subscribeTo target]) = [target]) := by
  refine ⟨?_, ?_, ?_⟩
  · intro hl
    simp [Switch.emit, hl]
  · intro hl heq
    simp [Switch.emit, hl, ← heq]
  · intro hl hne
    have hEq : Switch.emit (fuel + 1) st v st.selection_id (fun _ => none) =
        .ok ({ st with selected_publisher := some target },
          (match st.selected_publisher with
            | some old => [SwitchEffect.unsubscribeFrom old]
            | none => []) ++ [SwitchEffect.subscribeTo target]) := by
      simp [Switch.emit, hl, hne]
    refine ⟨hEq, ?_, ?_, ?_⟩
    · intro w st2 effs heq
      rw [hEq] at heq
      simp only [Except.ok.injEq, Prod.mk.injEq] at heq
      rw [← heq.2]
      cases st.selected_publisher with
      | none => simp
      | some old => simp
    · intro n
      cases hsel : st.selected_publisher with
      | none =>
        rcases n with _ | m
        · simp
        · simp [applySwitchEffect]
      | some old =>
        rcases n with _ | _ | m
        · simp
        · simp [applySwitchEffect]
        · simp [applySwitchEffect]
    · cases hsel : st.selected_publisher with
      | none => simp [applySwitchEffect]
      | some old => simp [applySwitchEffect]

/-- Witness for C3: mapping `{1: publisher 10, 2: publisher 20}` with control
publisher 0 and publisher 10 currently selected; key 5 is missing, key 1 is
the current selection, key 2 triggers the unsubscribe/subscribe
transition. -/
theorem c3_switch_control_emission_witness :
    Switch.emit 1 ⟨0, some 10, [(1, 10), (2, 20)]⟩ 5 0 (fun _ => none) =
      .error PyError.keyError ∧
    Switch.emit 1 ⟨0, some 10, [(1, 10), (2, 20)]⟩ 1 0 (fun _ => none) =
      .ok (⟨0, some 10, [(1, 10), (2, 20)]⟩, []) ∧
    Switch.emit 1 ⟨0, some 10, [(1, 10), (2, 20)]⟩ 2 0 (fun _ => none) =
      .ok (⟨0, some 20, [(1, 10), (2, 20)]⟩,
        [SwitchEffect.unsubscribeFrom 10, SwitchEffect.subscribeTo 20]) ∧
    List.foldl applySwitchEffect [10]
      [SwitchEffect.unsubscribeFrom 10, SwitchEffect.subscribeTo 20] = [20] :=
  ⟨(c3_switch_control_emission ⟨0, some 10, [(1, 10), (2, 20)]⟩ 5 0 0).1
      (by rfl),
   (c3_switch_control_emission ⟨0, some 10, [(1, 10), (2, 20)]⟩ 1 10 0).2.1
      (by rfl) (by rfl),
   ((c3_switch_control_emission ⟨0, some 10, [(1, 10), (2, 20)]⟩ 2 20 0).2.2
      (by rfl) (by decide)).1,
   ((c3_switch_control_emission ⟨0, some 10, [(1, 10), (2, 20)]⟩ 2 20 0).2.2
      (by rfl) (by decide)).2.2.2⟩

/-- Claim C10: during a control transition the new candidate is recorded as
`self._selected_publisher` before `subscribe` is called on it, so a
candidate that replays reentrantly inside that subscribe passes the `emit
from not selected publisher` assertion and its value is forwarded
downstream via the operator's `notify` within the same control emission. -/
theorem c10_switch_reentrant_replay_forwarded (st : SwitchState)
    (v target r fuel : Nat) (replay : Nat → Option Nat)
    (hl : lookupMapping st.mapping v = some target)
    (hne : some target ≠ st.selected_publisher)
    (hctl : target ≠ st.selection_id)
    (hr : replay target = some r) :
    Switch.emit (fuel + 2) st v st.selection_id replay =
      .ok ({ st with selected_publisher := some target },
        (match st.selected_publisher with
          | some old => [SwitchEffect.unsubscribeFrom old]
          | none => []) ++
        [SwitchEffect.subscribeTo target, SwitchEffect.notifyOut r]) ∧
    ∀ st2 effs,
      Switch.emit (fuel + 2) st v st.selection_id replay = .ok (st2, effs) →
      SwitchEffect.notifyOut r ∈ effs := by
  have hEq : Switch.emit (fuel + 2) st v st.selection_id replay =
      .ok ({ st with selected_publisher := some target },
        (match st.selected_publisher with
          | some old => [SwitchEffect.unsubscribeFrom old]
          | none => []) ++
        [SwitchEffect.subscribeTo target, SwitchEffect.notifyOut r]) := by
    simp [Switch.emit, hl, hne, hr, hctl]
  refine ⟨hEq, ?_⟩
  intro st2 effs heq
  rw [hEq] at heq
  simp only [Except.ok.injEq, Prod.mk.injEq] at heq
  rw [← heq.2]
  cases st.selected_publisher with
  | none => simp
  | some old => simp

/-- Witness for C10: selecting key 2 subscribes candidate 20, which replays
the value 99 reentrantly; the replay is forwarded downstream inside the
same control emission. -/
theorem c10_switch_reentrant_replay_forwarded_witness :
    Switch.emit 2 ⟨0, some 10, [(1, 10), (2, 20)]⟩ 2 0
      (fun pid => if pid = 20 then some 99 else none) =
      .ok (⟨0, some 20, [(1, 10), (2, 20)]⟩,
        [SwitchEffect.unsubscribeFrom 10, SwitchEffect.subscribeTo 20,
          SwitchEffect.notifyOut 99]) :=
  (c10_switch_reentrant_replay_forwarded ⟨0, some 10, [(1, 10), (2, 20)]⟩
    2 20 99 0 (fun pid => if pid = 20 then some 99 else none)
    (by rfl) (by decide) (by decide) (by rfl)).1
